import Mathlib

/-!
Verification of the F1 dashboard's session-data aggregation, caching and
fallback behaviour against its natural-language specification.

The development shallowly embeds the relevant backend code:
* the relational rows of `database/schema.sql` become Lean structures;
* the SQL queries of `backend/src/routes/f1.ts` and
  `backend/src/services/F1Service.ts` become list transformations with SQL
  NULL modelled by `Option` (DECIMAL columns become `ℚ`, TIMESTAMP columns
  become epoch naturals);
* the JavaScript aggregation of `static/js/main.js` (the embedded
  `F1Service` with the Redis cache) becomes explicit state passing, with
  `Math.random()` modelled by an explicit stream `rand : ℕ → ℚ` of draws in
  `[0,1)` consumed in call order, and the Redis cache modelled as an
  association list of `(key, value, expiry)` entries.
-/

/-- A row of the `f1_sessions` table (schema.sql). Nullable columns are
`Option`; `session_date` is an epoch timestamp. The `weather_data` and
`circuit_info` JSONB payloads are carried as uninterpreted strings. -/
structure SessionRow where
  id : Nat
  year : Nat
  round_number : Nat
  session_type : String
  event_name : String
  circuit_key : Option String
  country : Option String
  location : Option String
  session_date : Option Nat
  weather_data : Option String
  circuit_info : Option String
  is_processed : Bool
  created_at : Nat
deriving DecidableEq, Repr

/-- A row of the `drivers` table; `driver_number` is the primary key. -/
structure DriverRow where
  driver_number : String
  driver_code : Option String
  full_name : Option String
  first_name : Option String
  last_name : Option String
  nationality : Option String
  team_id : Option Nat
  is_active : Bool
deriving DecidableEq, Repr

/-- A row of the `teams` table. -/
structure TeamRow where
  id : Nat
  team_name : Option String
  team_color : Option String
deriving DecidableEq, Repr

/-- A row of the `lap_times` table. DECIMAL times are rationals (seconds);
`pit_in_time` / `pit_out_time` are epoch rationals after `EXTRACT(EPOCH ...)`. -/
structure LapRow where
  id : Nat
  session_id : Nat
  driver_number : String
  lap_number : Nat
  lap_time : Option ℚ
  sector1_time : Option ℚ
  sector2_time : Option ℚ
  sector3_time : Option ℚ
  speed_i1 : Option ℚ
  speed_i2 : Option ℚ
  speed_fl : Option ℚ
  speed_st : Option ℚ
  compound : Option String
  tyre_life : Option Nat
  stint_number : Option Nat
  position : Option Nat
  pit_in_time : Option ℚ
  pit_out_time : Option ℚ
  is_personal_best : Bool
  created_at : Nat
deriving DecidableEq, Repr

/-- A row of the `telemetry_data` table; the JSONB `data` payload is carried
as an uninterpreted string. -/
structure TelemetryRow where
  id : Nat
  session_id : Nat
  driver_number : String
  lap_number : Option Nat
  telemetry_type : Option String
  data : String
  created_at : Nat
deriving DecidableEq, Repr

/-- A row of the `race_control_messages` table. -/
structure RaceControlRow where
  session_id : Nat
  message_time : Option Nat
  category : Option String
  message : Option String
  status : Option String
  flag : Option String
  scope : Option String
deriving DecidableEq, Repr

/-- A row of the `track_status` table. -/
structure TrackStatusRow where
  session_id : Nat
  status_time : Option Nat
  status : Option String
  message : Option String
deriving DecidableEq, Repr

/-- The relational store read by the backend: the five tables the routes
and services touch. -/
structure Store where
  f1_sessions : List SessionRow
  drivers : List DriverRow
  teams : List TeamRow
  lap_times : List LapRow
  telemetry_data : List TelemetryRow
  race_control_messages : List RaceControlRow
  track_status : List TrackStatusRow
deriving Repr

/-- SQL `MIN` aggregate over a nullable DECIMAL column: NULL values are
ignored; the result is NULL exactly when every value in the group is NULL. -/
def sqlMin (l : List (Option ℚ)) : Option ℚ :=
  (l.filterMap id).foldl
    (fun acc t =>
      match acc with
      | none => some t
      | some m => some (min m t)) none

/-- The comparison realising SQL `ORDER BY fastest_lap ASC NULLS LAST`. -/
def fastestLapLe (a b : Option ℚ) : Bool :=
  match a, b with
  | none, none => true
  | none, some _ => false
  | some _, none => true
  | some x, some y => decide (x ≤ y)

/-- SQL `ORDER BY` under a Boolean comparison, realised as a (stable,
structurally recursive) insertion sort. -/
def List.sortBy {α : Type} (l : List α) (le : α → α → Bool) : List α :=
  List.insertionSort (fun a b => le a b = true) l

/-- All `lap_times` rows of one session (`WHERE lt.session_id = $1`). -/
def sessionLaps (store : Store) (sid : Nat) : List LapRow :=
  store.lap_times.filter (fun lt => decide (lt.session_id = sid))

/-- Resolve `LEFT JOIN drivers d ON lt.driver_number = d.driver_number`
(`driver_number` is the primary key of `drivers`). -/
def profileOf (store : Store) (num : String) : Option DriverRow :=
  store.drivers.find? (fun d => decide (d.driver_number = num))

/-- Resolve `LEFT JOIN teams t ON d.team_id = t.id`. -/
def teamOf (store : Store) (d : DriverRow) : Option TeamRow :=
  match d.team_id with
  | none => none
  | some tid => store.teams.find? (fun t => decide (t.id = tid))

/-- The `GROUP BY` key of the drivers query in routes/f1.ts: the joined
driver and team columns, all NULL when the lap row's driver number has no
profile row (LEFT JOIN). -/
structure DriverAggKey where
  driver_number : Option String
  driver_code : Option String
  full_name : Option String
  first_name : Option String
  last_name : Option String
  nationality : Option String
  team_name : Option String
  team_color : Option String
deriving DecidableEq, Repr

/-- The joined key for one lap row's driver number. -/
def aggKeyOf (store : Store) (num : String) : DriverAggKey :=
  match profileOf store num with
  | none => ⟨none, none, none, none, none, none, none, none⟩
  | some d =>
      let tname := match teamOf store d with
        | none => none
        | some t => t.team_name
      let tcolor := match teamOf store d with
        | none => none
        | some t => t.team_color
      ⟨some d.driver_number, d.driver_code, d.full_name, d.first_name,
        d.last_name, d.nationality, tname, tcolor⟩

/-- One output row of the drivers query in routes/f1.ts:
`COUNT(lt.lap_number)` and `MIN(lt.lap_time)` per group. -/
structure DriverAggRow where
  key : DriverAggKey
  total_laps : Nat
  fastest_lap : Option ℚ
deriving DecidableEq, Repr

/-- The drivers query of the GET session handler (routes/f1.ts lines
124-142): lap rows of the session, left-joined to drivers and teams,
grouped by the joined columns, aggregated with `COUNT(lt.lap_number)` and
`MIN(lt.lap_time)`, ordered by `fastest_lap ASC NULLS LAST`. -/
def driversQuery (store : Store) (sid : Nat) : List DriverAggRow :=
  let laps := sessionLaps store sid
  let keys := (laps.map (fun lt => aggKeyOf store lt.driver_number)).dedup
  let rows := keys.map (fun k =>
    let grp := laps.filter (fun lt => decide (aggKeyOf store lt.driver_number = k))
    { key := k
      total_laps := grp.length
      fastest_lap := sqlMin (grp.map (fun lt => lt.lap_time)) })
  rows.sortBy (fun a b => fastestLapLe a.fastest_lap b.fastest_lap)

example : sqlMin [none, some 3, some 2, none] = some 2 := by decide
example : sqlMin [none, none] = none := by decide

/-- JavaScript truthiness-based null-coalescing `a || b` for nullable
strings: NULL, undefined and the empty string all fall through to the
default. -/
def jsOr (o : Option String) (dflt : String) : String :=
  match o with
  | some s => if s = "" then dflt else s
  | none => dflt

/-- A JavaScript object key: `obj[x]` coerces `null` to the string
literal key `"null"`. -/
def jsKey (o : Option String) : String :=
  match o with
  | some s => s
  | none => "null"

/-- One element of a driver's `laps` array as pushed by the GET session
handler (routes/f1.ts lines 189-198). -/
structure LapJson where
  lap_number : Nat
  lap_time : Option ℚ
  sector1_time : Option ℚ
  sector2_time : Option ℚ
  sector3_time : Option ℚ
  compound : Option String
  tyre_life : Option Nat
  position : Option Nat
deriving DecidableEq, Repr

/-- The projection of a lap row pushed into a driver's `laps` array. -/
def toLapJson (lt : LapRow) : LapJson :=
  { lap_number := lt.lap_number
    lap_time := lt.lap_time
    sector1_time := lt.sector1_time
    sector2_time := lt.sector2_time
    sector3_time := lt.sector3_time
    compound := lt.compound
    tyre_life := lt.tyre_life
    position := lt.position }

/-- One value of the `driversData` object built by the GET session handler
(routes/f1.ts lines 149-161). -/
structure DriverEntry where
  driver_number : Option String
  name : Option String
  abbreviation : Option String
  team : String
  team_color : String
  country_code : String
  laps : List LapJson
  fastest_lap : Option ℚ
deriving DecidableEq, Repr

/-- A JavaScript object with string keys, as an insertion-ordered
association list; assignment to an existing key overwrites in place. -/
abbrev ObjMap (α : Type) : Type := List (String × α)

/-- Property read `m[k]`. -/
def objGet {α : Type} (m : ObjMap α) (k : String) : Option α :=
  match m with
  | [] => none
  | p :: rest => if p.1 = k then some p.2 else objGet rest k

/-- Property write `m[k] = v`: overwrite in place when the key exists,
append otherwise (JavaScript objects preserve insertion order). -/
def objSet {α : Type} (m : ObjMap α) (k : String) (v : α) : ObjMap α :=
  match m with
  | [] => [(k, v)]
  | p :: rest => if p.1 = k then (k, v) :: rest else p :: objSet rest k v

/-- The `driversData` object after the `driversResult.rows.forEach` loop
(routes/f1.ts lines 149-161): one entry per aggregated driver row, keyed by
the (possibly NULL) joined driver number, laps initially empty. -/
def buildDriversData (rows : List DriverAggRow) : ObjMap DriverEntry :=
  rows.foldl
    (fun m driver =>
      objSet m (jsKey driver.key.driver_number)
        { driver_number := driver.key.driver_number
          name := driver.key.full_name
          abbreviation := driver.key.driver_code
          team := jsOr driver.key.team_name "Unknown Team"
          team_color := jsOr driver.key.team_color "#808080"
          country_code := jsOr driver.key.nationality "Unknown"
          laps := []
          fastest_lap := driver.fastest_lap }) []

/-- The comparison realising `ORDER BY driver_number, lap_number`
(`driver_number` is a VARCHAR column, so it orders as a string). -/
def byDriverLap (a b : LapRow) : Bool :=
  if a.driver_number = b.driver_number then decide (a.lap_number ≤ b.lap_number)
  else decide (a.driver_number < b.driver_number)

/-- The lap-times query of the GET session handler (routes/f1.ts lines
164-179): the session's lap rows ordered by driver number then lap number,
truncated by `LIMIT 100`. -/
def lapTimesQuery (store : Store) (sid : Nat) : List LapRow :=
  ((sessionLaps store sid).sortBy byDriverLap).take 100

/-- One step of the `lapTimesResult.rows.forEach` loop (routes/f1.ts lines
184-200): the lap is appended to `driversData[lap.driver_number].laps` when
that key exists, and dropped otherwise. -/
def addLap (m : ObjMap DriverEntry) (lt : LapRow) : ObjMap DriverEntry :=
  match objGet m lt.driver_number with
  | none => m
  | some e => objSet m lt.driver_number { e with laps := e.laps ++ [toLapJson lt] }

/-- The whole lap-distribution loop. -/
def addLaps (m : ObjMap DriverEntry) (laps : List LapRow) : ObjMap DriverEntry :=
  laps.foldl addLap m

/-- JavaScript `Math.floor`: the floor of a rational as an integer
(`Int.fdiv` is floor division). -/
def mathFloor (q : ℚ) : Int :=
  Int.fdiv q.num q.den

/-- JavaScript `x.toFixed(3)` for the non-negative rationals produced here:
round to the nearest thousandth (half away from zero) and print with
exactly three decimals. -/
def toFixed3 (q : ℚ) : String :=
  let n : Int := mathFloor (q * 1000 + 1/2)
  let f : Nat := (n % 1000).toNat
  let fs := if f < 10 then "00" ++ toString f
    else if f < 100 then "0" ++ toString f
    else toString f
  toString (n / 1000) ++ "." ++ fs

/-- One element of the `timing` array built by the GET session handler
(routes/f1.ts lines 202-213). `tyre_life` is `Math.floor(r*20)+1`. -/
structure TimingEntry where
  driver : Option String
  position : Nat
  gap : String
  lap_time : Option ℚ
  sector1 : Option ℚ
  sector2 : Option ℚ
  sector3 : Option ℚ
  compound : String
  tyre_life : Int
deriving DecidableEq, Repr

/-- The body of the `timingData` map (routes/f1.ts lines 202-213), with the
`Math.random()` draws made explicit: the element at index `i` consumes draw
`2*i - 1` for its gap (only when `i ≠ 0`, matching the conditional) and
draw `2*i` for its tyre life, in call order. -/
def timingGo (rand : Nat → ℚ) : Nat → List DriverAggRow → List TimingEntry
  | _, [] => []
  | i, row :: rest =>
      { driver := row.key.driver_number
        position := i + 1
        gap := if i = 0 then "LEADER" else "+" ++ toFixed3 (rand (2 * i - 1) * 30)
        lap_time := row.fastest_lap
        sector1 := none
        sector2 := none
        sector3 := none
        compound := "MEDIUM"
        tyre_life := mathFloor (rand (2 * i) * 20) + 1 } :: timingGo rand (i + 1) rest

/-- The `timingData` array (routes/f1.ts lines 202-213). -/
def timingData (rows : List DriverAggRow) (rand : Nat → ℚ) : List TimingEntry :=
  timingGo rand 0 rows

/-- The `weather` field of the response: the session's stored
`weather_data` JSONB when present, otherwise the hard-coded default
snapshot literal (air_temp 28, track_temp 42, humidity 65, pressure 1013,
wind_direction 180, wind_speed 12, rainfall false). -/
inductive WeatherField where
  | fromStore (w : String)
  | defaultSnapshot
deriving DecidableEq, Repr

/-- The `session_info` object of the response (routes/f1.ts lines 217-226);
`total_laps` is the hard-coded constant 57. -/
structure SessionInfo where
  name : String
  date : Option Nat
  event_name : String
  country : Option String
  location : Option String
  circuit_key : Option String
  session_type : String
  total_laps : Nat
deriving DecidableEq, Repr

/-- The GET session response body (routes/f1.ts lines 216-243): `telemetry`
is the empty object, `track_status` and `race_control` are empty arrays,
and `circuit_info` substitutes the empty object for NULL. -/
structure SessionOut where
  session_info : SessionInfo
  drivers : ObjMap DriverEntry
  telemetry : ObjMap String
  timing : List TimingEntry
  weather : WeatherField
  track_status : List String
  race_control : List String
  circuit_info : Option String
deriving DecidableEq, Repr

/-- A structured error response: HTTP status plus the error message. -/
structure ErrOut where
  status : Nat
  error : String
deriving DecidableEq, Repr

/-- The GET `/session/:year/:round/:session` handler of routes/f1.ts (lines
71-260). `year` and `round` arrive as `none` when `parseInt` produced NaN.
`rand` is the stream of `Math.random()` draws consumed by the timing map. -/
def f1SessionHandler (store : Store) (rand : Nat → ℚ)
    (year round : Option Nat) (sessionType : String) : Except ErrOut SessionOut :=
  match year, round with
  | some y, some r =>
      match store.f1_sessions.filter
          (fun s => decide (s.year = y ∧ s.round_number = r ∧ s.session_type = sessionType)) with
      | [] => .error ⟨404, "Session not found"⟩
      | s :: _ =>
          let driversResult := driversQuery store s.id
          let driversData := buildDriversData driversResult
          let lapRows := lapTimesQuery store s.id
          let driversData := addLaps driversData lapRows
          let timing := timingData driversResult rand
          .ok
            { session_info :=
                { name := s.session_type
                  date := s.session_date
                  event_name := s.event_name
                  country := s.country
                  location := s.location
                  circuit_key := s.circuit_key
                  session_type := s.session_type
                  total_laps := 57 }
              drivers := driversData
              telemetry := []
              timing := timing
              weather := match s.weather_data with
                | some w => .fromStore w
                | none => .defaultSnapshot
              track_status := []
              race_control := []
              circuit_info := s.circuit_info }
  | _, _ => .error ⟨400, "Invalid year or round parameter"⟩

example : toFixed3 0 = "0.000" := by with_unfolding_all decide
example : toFixed3 15 = "15.000" := by with_unfolding_all decide
example : toFixed3 (1/5 : ℚ) = "0.200" := by with_unfolding_all decide

/-- One Redis cache entry: the cached value together with its absolute
expiry time (seconds); `SETEX key ttl v` stores expiry `now + ttl`.
`JSON.stringify` / `JSON.parse` round-tripping is treated as the identity,
so the cache holds the value itself. -/
structure RedisEntry (α : Type) where
  value : α
  expiry : Nat
deriving DecidableEq, Repr

/-- The Redis store restricted to one resource's key space. -/
abbrev RCache (α : Type) : Type := ObjMap (RedisEntry α)

/-- Redis `GET` at time `now`: a present entry is returned while unexpired
and invisible afterwards. -/
def redisGet {α : Type} (c : RCache α) (now : Nat) (k : String) : Option α :=
  match objGet c k with
  | some e => if now < e.expiry then some e.value else none
  | none => none

/-- Redis `SETEX` at time `now`. -/
def redisSetex {α : Type} (c : RCache α) (now ttl : Nat) (k : String) (v : α) : RCache α :=
  objSet c k ⟨v, now + ttl⟩

/-- The outcome of one cached fetch: the returned value, how many times the
miss path (the producer: the database work plus the `SETEX`) ran, and the
cache afterwards. -/
structure FetchResult (β : Type) (α : Type) where
  value : β
  producerRuns : Nat
  cache : RCache α
deriving Repr

/-- One row of the schedule query in the main.js `F1Service`
(`getSeasonSchedule`): race sessions of the year projected and ordered by
round number. -/
structure ScheduleRowM where
  round : Nat
  event_name : String
  country : Option String
  location : Option String
  event_date : Option Nat
  event_format : String
deriving DecidableEq, Repr

/-- The schedule query of main.js `getSeasonSchedule`. -/
def scheduleQueryM (store : Store) (year : Nat) : List ScheduleRowM :=
  ((store.f1_sessions.filter
      (fun s => decide (s.year = year ∧ s.session_type = "Race"))).sortBy
      (fun a b => decide (a.round_number ≤ b.round_number))).map
    (fun s => ⟨s.round_number, s.event_name, s.country, s.location, s.session_date, "Standard"⟩)

/-- main.js `F1Service.getSeasonSchedule` (lines 3130-3165): Redis lookup
under `schedule:{year}`, and on a miss the database query followed by
`SETEX` with TTL 3600 seconds. -/
def mainGetSeasonSchedule (store : Store) (cache : RCache (List ScheduleRowM))
    (now year : Nat) : FetchResult (List ScheduleRowM) (List ScheduleRowM) :=
  let cacheKey := "schedule:" ++ toString year
  match redisGet cache now cacheKey with
  | some v => ⟨v, 0, cache⟩
  | none =>
      let schedule := scheduleQueryM store year
      ⟨schedule, 1, redisSetex cache now 3600 cacheKey schedule⟩

/-- One element of a driver's JSON-aggregated `laps` array in main.js
`getDriversData` (lines 3248-3269). -/
structure LapJsonM where
  lap_number : Nat
  lap_time : Option ℚ
  sector1_time : Option ℚ
  sector2_time : Option ℚ
  sector3_time : Option ℚ
  speed_i1 : Option ℚ
  speed_i2 : Option ℚ
  speed_fl : Option ℚ
  speed_st : Option ℚ
  compound : Option String
  tyre_life : Option Nat
  stint : Option Nat
  pit_out_time : Option ℚ
  pit_in_time : Option ℚ
  is_personal_best : Bool
deriving DecidableEq, Repr

/-- The JSON object built per lap row in main.js `getDriversData`. -/
def toLapJsonM (lt : LapRow) : LapJsonM :=
  { lap_number := lt.lap_number
    lap_time := lt.lap_time
    sector1_time := lt.sector1_time
    sector2_time := lt.sector2_time
    sector3_time := lt.sector3_time
    speed_i1 := lt.speed_i1
    speed_i2 := lt.speed_i2
    speed_fl := lt.speed_fl
    speed_st := lt.speed_st
    compound := lt.compound
    tyre_life := lt.tyre_life
    stint := lt.stint_number
    pit_out_time := lt.pit_out_time
    pit_in_time := lt.pit_in_time
    is_personal_best := lt.is_personal_best }

/-- One value of the `driversData` object of main.js `getDriversData`
(lines 3282-3300). -/
structure DriverEntryM where
  driver_number : String
  name : Option String
  abbreviation : Option String
  team : Option String
  team_color : Option String
  country_code : Option String
  laps : List LapJsonM
  fastest_lap : Option ℚ
deriving DecidableEq, Repr

/-- JavaScript truthiness of a lap's `lap_time`: `null`, `undefined` and
`0` are falsy (the `laps.filter(lap => lap.lap_time)` predicate). -/
def jsTruthyLapTime (l : LapJsonM) : Bool :=
  match l.lap_time with
  | some t => decide (t ≠ 0)
  | none => false

/-- The `reduce` callback of main.js `getDriversData` (lines 3287-3288):
`!fastest || current.lap_time < fastest.lap_time ? current : fastest`.
After the truthiness filter both lap times are numbers; `getD 0` extracts
them. -/
def jsPickFaster (fastest : Option LapJsonM) (current : LapJsonM) : Option LapJsonM :=
  match fastest with
  | none => some current
  | some f =>
      if (current.lap_time.getD 0) < (f.lap_time.getD 0) then some current
      else some f

/-- The `reduce` of main.js `getDriversData` (lines 3285-3288): over the
truthy-lap-time laps, keep the lap with the strictly smaller `lap_time`,
the earlier lap on ties, starting from `null`. -/
def jsFastestLapOf (laps : List LapJsonM) : Option LapJsonM :=
  (laps.filter jsTruthyLapTime).foldl jsPickFaster none

/-- JavaScript `x || null` on a nullable number: `0` collapses to `null`. -/
def jsNumOrNull (o : Option ℚ) : Option ℚ :=
  match o with
  | some t => if t = 0 then none else some t
  | none => none

/-- The comparison realising `ORDER BY lt.lap_number` inside the JSON
aggregation. -/
def byLapNumber (a b : LapRow) : Bool :=
  decide (a.lap_number ≤ b.lap_number)

/-- main.js `getDriversData` (lines 3239-3303): drivers having at least one
lap row in the session, left-joined to teams, with their session laps
JSON-aggregated in lap-number order; the JavaScript loop then derives
`fastest_lap` from the truthy-lap-time laps via `jsFastestLapOf`. -/
def mainGetDriversData (store : Store) (sid : Nat) : ObjMap DriverEntryM :=
  let rows := store.drivers.filter
    (fun d => (sessionLaps store sid).any (fun lt => decide (lt.driver_number = d.driver_number)))
  rows.foldl
    (fun m d =>
      let laps := (((sessionLaps store sid).filter
          (fun lt => decide (lt.driver_number = d.driver_number))).sortBy byLapNumber).map toLapJsonM
      objSet m d.driver_number
        { driver_number := d.driver_number
          name := d.full_name
          abbreviation := d.driver_code
          team := match teamOf store d with
            | none => none
            | some t => t.team_name
          team_color := match teamOf store d with
            | none => none
            | some t => t.team_color
          country_code := d.nationality
          laps := laps
          fastest_lap := jsNumOrNull ((jsFastestLapOf laps).bind (fun l => l.lap_time)) }) []

/-- A row of main.js `getTimingData` (lines 3322-3341). -/
structure TimingRowM where
  driver : String
  position : Option Nat
  lap_time : Option ℚ
  sector1 : Option ℚ
  sector2 : Option ℚ
  sector3 : Option ℚ
  compound : Option String
  tyre_life : Option Nat
deriving DecidableEq, Repr

/-- The comparison realising `ORDER BY position ASC` on a nullable INTEGER
column (ASC defaults to NULLS LAST). -/
def posAsc (a b : Option Nat) : Bool :=
  match a, b with
  | none, none => true
  | none, some _ => false
  | some _, none => true
  | some x, some y => decide (x ≤ y)

/-- The comparison realising `ORDER BY lap_number DESC, position ASC`. -/
def byLapDescPosAsc (a b : LapRow) : Bool :=
  if a.lap_number = b.lap_number then posAsc a.position b.position
  else decide (b.lap_number ≤ a.lap_number)

/-- main.js `getTimingData`: the session's lap rows ordered by lap number
descending then position ascending, truncated by `LIMIT 20`. -/
def mainGetTimingData (store : Store) (sid : Nat) : List TimingRowM :=
  (((sessionLaps store sid).sortBy byLapDescPosAsc).take 20).map
    (fun lt => ⟨lt.driver_number, lt.position, lt.lap_time, lt.sector1_time,
      lt.sector2_time, lt.sector3_time, lt.compound, lt.tyre_life⟩)

/-- main.js `getTelemetryData` (lines 3305-3320): the session's
`fastest_lap` telemetry rows keyed by driver number. -/
def mainGetTelemetryData (store : Store) (sid : Nat) : ObjMap String :=
  (store.telemetry_data.filter
      (fun td => decide (td.session_id = sid ∧ td.telemetry_type = some "fastest_lap"))).foldl
    (fun m td => objSet m td.driver_number td.data) []

/-- A row of main.js `getRaceControlMessages`. -/
structure RaceControlOut where
  time : Option Nat
  category : Option String
  message : Option String
  status : Option String
  flag : Option String
  scope : Option String
deriving DecidableEq, Repr

/-- The comparison realising `ORDER BY t DESC` on a nullable TIMESTAMP
column (DESC defaults to NULLS FIRST). -/
def timeDesc (a b : Option Nat) : Bool :=
  match a, b with
  | none, _ => true
  | some _, none => false
  | some x, some y => decide (y ≤ x)

/-- main.js `getRaceControlMessages` (lines 3343-3359). -/
def mainGetRaceControlMessages (store : Store) (sid : Nat) : List RaceControlOut :=
  ((store.race_control_messages.filter (fun m => decide (m.session_id = sid))).sortBy
      (fun a b => timeDesc a.message_time b.message_time)).map
    (fun m => ⟨m.message_time, m.category, m.message, m.status, m.flag, m.scope⟩)

/-- A row of main.js `getTrackStatus`. -/
structure TrackStatusOut where
  time : Option Nat
  status : Option String
  message : Option String
deriving DecidableEq, Repr

/-- main.js `getTrackStatus` (lines 3361-3374). -/
def mainGetTrackStatus (store : Store) (sid : Nat) : List TrackStatusOut :=
  ((store.track_status.filter (fun t => decide (t.session_id = sid))).sortBy
      (fun a b => timeDesc a.status_time b.status_time)).map
    (fun t => ⟨t.status_time, t.status, t.message⟩)

/-- main.js `getTotalLaps` (lines 3376-3385): `COUNT(DISTINCT lap_number)`. -/
def mainGetTotalLaps (store : Store) (sid : Nat) : Nat :=
  (((sessionLaps store sid).map (fun lt => lt.lap_number)).dedup).length

/-- The `session_info` object of main.js `getSessionData`. -/
structure SessionInfoM where
  name : String
  date : Option Nat
  event_name : String
  country : Option String
  location : Option String
  circuit_key : Option String
  session_type : String
  total_laps : Nat
deriving DecidableEq, Repr

/-- The aggregate built by main.js `getSessionData` (lines 3209-3227);
`weather` is the stored JSONB (the code substitutes the empty array for
NULL, kept here as the `Option`), `circuit_info` likewise. -/
structure SessionDataM where
  session_info : SessionInfoM
  drivers : ObjMap DriverEntryM
  telemetry : ObjMap String
  timing : List TimingRowM
  weather : Option String
  track_status : List TrackStatusOut
  race_control : List RaceControlOut
  circuit_info : Option String
deriving DecidableEq, Repr

/-- main.js `F1Service.getSessionData` (lines 3167-3237): Redis lookup
under `session:{year}:{round}:{type}`; on a miss the session row is looked
up (`null` when absent, not cached), the per-competitor aggregate is built,
and the result is cached with `SETEX` TTL 1800 seconds. -/
def mainGetSessionData (store : Store) (cache : RCache SessionDataM)
    (now year round : Nat) (sessionType : String) :
    FetchResult (Option SessionDataM) SessionDataM :=
  let cacheKey := "session:" ++ toString year ++ ":" ++ toString round ++ ":" ++ sessionType
  match redisGet cache now cacheKey with
  | some v => ⟨some v, 0, cache⟩
  | none =>
      match store.f1_sessions.filter
          (fun s => decide (s.year = year ∧ s.round_number = round ∧ s.session_type = sessionType)) with
      | [] => ⟨none, 1, cache⟩
      | s :: _ =>
          let sessionData : SessionDataM :=
            { session_info :=
                { name := s.session_type
                  date := s.session_date
                  event_name := s.event_name
                  country := s.country
                  location := s.location
                  circuit_key := s.circuit_key
                  session_type := s.session_type
                  total_laps := mainGetTotalLaps store s.id }
              drivers := mainGetDriversData store s.id
              telemetry := mainGetTelemetryData store s.id
              timing := mainGetTimingData store s.id
              weather := s.weather_data
              track_status := mainGetTrackStatus store s.id
              race_control := mainGetRaceControlMessages store s.id
              circuit_info := s.circuit_info }
          ⟨some sessionData, 1, redisSetex cache now 1800 cacheKey sessionData⟩

/-- The live snapshot of main.js `getLiveData`; `timestamp` renders the
clock passed in (`new Date().toISOString()`). -/
structure LiveDataM where
  session_key : String
  timestamp : String
  drivers : List String
  track_status : String
  session_status : String
deriving DecidableEq, Repr

/-- main.js `F1Service.getLiveData` (lines 3387-3415): Redis lookup under
`live:{sessionKey}`; on a miss a fresh snapshot is built and cached with
`SETEX` TTL 5 seconds. -/
def mainGetLiveData (cache : RCache LiveDataM) (now : Nat) (sessionKey : String) :
    FetchResult LiveDataM LiveDataM :=
  let cacheKey := "live:" ++ sessionKey
  match redisGet cache now cacheKey with
  | some v => ⟨v, 0, cache⟩
  | none =>
      let liveData : LiveDataM :=
        ⟨sessionKey, toString now, [], "Green", "Active"⟩
      ⟨liveData, 1, redisSetex cache now 5 cacheKey liveData⟩

/-- The comparison realising `ORDER BY year DESC, round_number DESC,
session_date DESC` (DESC on the nullable date defaults to NULLS FIRST). -/
def byYearRoundDateDesc (a b : SessionRow) : Bool :=
  if a.year = b.year then
    if a.round_number = b.round_number then timeDesc a.session_date b.session_date
    else decide (b.round_number ≤ a.round_number)
  else decide (b.year ≤ a.year)

/-- The comparison realising `ORDER BY year DESC, round_number ASC`. -/
def byYearDescRoundAsc (a b : SessionRow) : Bool :=
  if a.year = b.year then decide (a.round_number ≤ b.round_number)
  else decide (b.year ≤ a.year)

/-- The shared `WHERE` clause of the two session-listing operations:
`is_processed = true` always, plus the optional year and session-type
filters appended with `AND`. -/
def sessionListPred (year : Option Nat) (session_type : Option String) (s : SessionRow) : Bool :=
  s.is_processed &&
    (match year with
      | some y => decide (s.year = y)
      | none => true) &&
    (match session_type with
      | some t => decide (s.session_type = t)
      | none => true)

/-- `F1Service.getAllSessions` (F1Service.ts lines 86-123): processed
sessions matching the optional filters, ordered by year/round/date
descending, truncated by `LIMIT` (default 50). The SELECT projects columns
of the row; the whole row is carried here. -/
def getAllSessions (store : Store) (year : Option Nat) (session_type : Option String)
    (limit : Nat) : List SessionRow :=
  ((store.f1_sessions.filter (sessionListPred year session_type)).sortBy
      byYearRoundDateDesc).take limit

/-- The GET `/sessions` handler (routes/f1.ts lines 296-341): same filter,
ordered by year descending then round ascending, with `LIMIT` (default 50). -/
def f1SessionsHandler (store : Store) (year : Option Nat) (session_type : Option String)
    (limit : Nat) : List SessionRow :=
  ((store.f1_sessions.filter (sessionListPred year session_type)).sortBy
      byYearDescRoundAsc).take limit

/-- One row of the GET `/schedule/:year` response in routes/f1.ts (lines
33-45): `event_format` is the constant string `'Standard'`. -/
structure ScheduleRowOut where
  round : Nat
  event_name : String
  country : Option String
  location : Option String
  event_date : Option Nat
  event_format : String
  is_processed : Bool
deriving DecidableEq, Repr

/-- The GET `/schedule/:year` handler of routes/f1.ts (lines 21-68):
after the NaN check, the race sessions of the year projected, deduplicated
(`SELECT DISTINCT`) and ordered by round number; the result rows are
returned as-is — an empty store yields an empty list, not an error and not
synthetic data. -/
def f1ScheduleHandler (store : Store) (year : Option Nat) :
    Except ErrOut (List ScheduleRowOut) :=
  match year with
  | none => .error ⟨400, "Invalid year parameter"⟩
  | some y =>
      .ok ((((store.f1_sessions.filter
          (fun s => decide (s.year = y ∧ s.session_type = "Race"))).sortBy
          (fun a b => decide (a.round_number ≤ b.round_number))).map
        (fun s => ({ round := s.round_number
                     event_name := s.event_name
                     country := s.country
                     location := s.location
                     event_date := s.session_date
                     event_format := "Standard"
                     is_processed := s.is_processed } : ScheduleRowOut))).dedup)

/-- One row of the second `/schedule/:year` handler (unnamed/part_000 lines
562-570). -/
structure ScheduleRowP0 where
  round : Nat
  event_name : String
  country : Option String
  location : Option String
  session_date : Option Nat
  has_data : Bool
  sessions_count : Nat
deriving DecidableEq, Repr

/-- The `GROUP BY` key of the part_000 schedule query. -/
structure ScheduleGroupKey where
  round_number : Nat
  event_name : String
  country : Option String
  location : Option String
  session_date : Option Nat
deriving DecidableEq, Repr

/-- The part_000 `/schedule/:year` handler (unnamed/part_000 lines
526-583): sessions of the year grouped by round/event/country/location/
date with processed and total counts, ordered by round; when no rows exist
the response is a success carrying the empty list plus a
`No sessions found` message — again not an error and not synthetic data. -/
def part000ScheduleHandler (store : Store) (year : Option Nat) :
    Except ErrOut (List ScheduleRowP0 × Option String) :=
  match year with
  | none => .error ⟨400, "Invalid year parameter"⟩
  | some y =>
      let sessions := store.f1_sessions.filter (fun s => decide (s.year = y))
      let keys := (sessions.map
        (fun s => (⟨s.round_number, s.event_name, s.country, s.location,
          s.session_date⟩ : ScheduleGroupKey))).dedup
      let rows := (keys.sortBy
          (fun a b => decide (a.round_number ≤ b.round_number))).map
        (fun k =>
          let grp := sessions.filter (fun s =>
            decide (s.round_number = k.round_number ∧ s.event_name = k.event_name ∧
              s.country = k.country ∧ s.location = k.location ∧
              s.session_date = k.session_date))
          ({ round := k.round_number
             event_name := k.event_name
             country := k.country
             location := k.location
             session_date := k.session_date
             has_data := decide (0 < (grp.filter (fun s => s.is_processed)).length)
             sessions_count := grp.length } : ScheduleRowP0))
      if rows.length = 0 then
        .ok ([], some ("No sessions found for " ++ toString y))
      else
        .ok (rows, none)

/-- The value returned by `F1Service.getTelemetryData`: either the stored
JSONB payload of the newest matching `telemetry_data` row, or the
synthetic mock payload the code builds when the session exists but holds
no telemetry for the driver (a 100-sample object generated with `Math.sin`
and `Math.random`, represented here by the `mock` tag — its contents never
reach a claim). -/
inductive TelemetryResult where
  | stored (data : String)
  | mock
deriving DecidableEq, Repr

/-- `F1Service.getTelemetryData` (F1Service.ts lines 356-402): resolve the
(year, round, session type) session (`null` when absent); then return the
newest stored telemetry row for the driver, or the mock payload when none
exists. -/
def getTelemetryData (store : Store) (year round : Nat) (sessionType driver : String) :
    Option TelemetryResult :=
  match store.f1_sessions.filter
      (fun s => decide (s.year = year ∧ s.round_number = round ∧ s.session_type = sessionType)) with
  | [] => none
  | s :: _ =>
      match ((store.telemetry_data.filter
          (fun td => decide (td.session_id = s.id ∧ td.driver_number = driver))).sortBy
          (fun a b => decide (b.created_at ≤ a.created_at))).take 1 with
      | r :: _ => some (.stored r.data)
      | [] => some .mock

/-- The GET `/telemetry/:year/:round/:session/:driver` handler of
routes/f1.ts (lines 263-293): it performs no store access at all and
always responds 200 with a freshly generated sample payload. -/
def f1TelemetryHandler (_store : Store) (_year _round _sessionType _driver : String) :
    Except ErrOut TelemetryResult :=
  .ok .mock

/-- The phase of one concurrent caller of the cached-fetch pattern of
main.js (`redis.get` → on miss run the producer → `SETEX`): `ready` before
its cache check, `producing` after it observed a miss and invoked the
producer, `done v` once it returned `v`. -/
inductive CallerPhase (α : Type) where
  | ready
  | producing
  | done (v : α)
deriving DecidableEq, Repr

/-- The shared state of `n` concurrent callers for one key: the Redis
slice, each caller's phase, and how many producer invocations (miss-path
executions reading the store) have started. -/
structure CacheSys (α : Type) where
  cache : RCache α
  callers : List (CallerPhase α)
  produces : Nat
deriving Repr

/-- One atomic step of caller `i`, exactly the suspension points of the
code: a `ready` caller performs its `redis.get` (finishing on a hit,
otherwise invoking the producer); a `producing` caller finishes the
producer, performs its `SETEX` and returns the produced value. Nothing in
the code makes a caller await another caller's in-flight producer. -/
def cacheStep {α : Type} (producer : α) (now ttl : Nat) (k : String)
    (s : CacheSys α) (i : Nat) : CacheSys α :=
  match s.callers[i]? with
  | some .ready =>
      match redisGet s.cache now k with
      | some v => { s with callers := s.callers.set i (.done v) }
      | none =>
          { s with callers := s.callers.set i .producing, produces := s.produces + 1 }
  | some .producing =>
      { s with
        cache := redisSetex s.cache now ttl k producer
        callers := s.callers.set i (.done producer) }
  | _ => s

/-- Run an interleaving: the schedule lists which caller steps at each
instant. -/
def cacheRun {α : Type} (producer : α) (now ttl : Nat) (k : String)
    (s : CacheSys α) (sched : List Nat) : CacheSys α :=
  sched.foldl (cacheStep producer now ttl k) s

/-- `n` callers all starting before their cache check, over an empty
cache. -/
def initSys (α : Type) (n : Nat) : CacheSys α :=
  ⟨[], List.replicate n .ready, 0⟩

/-- The stampede interleaving: every caller performs its cache check
before any caller has written. -/
def stampedeSched (n : Nat) : List Nat :=
  List.range n

/-- The sequential interleaving: caller 0 checks, produces and writes;
only then does each remaining caller perform its check. -/
def seqSched (n : Nat) : List Nat :=
  0 :: 0 :: (List.range (n - 1)).map (fun i => i + 1)

/-- Auxiliary: while the key is missing from the cache, every scheduled
cache check of a distinct `ready` caller observes the miss and starts its
own producer invocation — one per caller. -/
theorem cacheRun_checks_produce {α : Type} (producer : α) (now ttl : Nat) (k : String)
    (l : List Nat) (s : CacheSys α)
    (hmiss : redisGet s.cache now k = none)
    (hready : ∀ i ∈ l, s.callers[i]? = some .ready)
    (hnodup : l.Nodup) :
    (cacheRun producer now ttl k s l).produces = s.produces + l.length := by
  induction l generalizing s with
  | nil => simp [cacheRun]
  | cons i l ih =>
      have hstep : cacheStep producer now ttl k s i =
          { s with callers := s.callers.set i .producing, produces := s.produces + 1 } := by
        unfold cacheStep
        rw [hready i (List.mem_cons_self i l), hmiss]
      have hrun : cacheRun producer now ttl k s (i :: l) =
          cacheRun producer now ttl k (cacheStep producer now ttl k s i) l := by
        simp [cacheRun]
      rw [hrun, hstep]
      have htail := ih { s with callers := s.callers.set i .producing, produces := s.produces + 1 }
        hmiss
        (by
          intro j hj
          have hne : i ≠ j := by
            rintro rfl
            exact (List.nodup_cons.mp hnodup).1 hj
          simpa [List.getElem?_set_ne hne] using hready j (List.mem_cons_of_mem i hj))
        (List.nodup_cons.mp hnodup).2
      rw [htail]
      simp [List.length_cons]
      omega

/-- Auxiliary: once a live entry for the key is in the cache and no caller
is mid-producer, no further interleaving invokes the producer again. -/
theorem cacheRun_hits_no_produce {α : Type} (producer v : α) (now ttl : Nat) (k : String)
    (l : List Nat) (s : CacheSys α)
    (hhit : redisGet s.cache now k = some v)
    (hno : ∀ i : Nat, s.callers[i]? ≠ some .producing) :
    (cacheRun producer now ttl k s l).produces = s.produces := by
  induction l generalizing s with
  | nil => simp [cacheRun]
  | cons i l ih =>
      have hrun : cacheRun producer now ttl k s (i :: l) =
          cacheRun producer now ttl k (cacheStep producer now ttl k s i) l := by
        simp [cacheRun]
      rw [hrun]
      rcases hp : s.callers[i]? with _ | ph
      · have hstep : cacheStep producer now ttl k s i = s := by
          unfold cacheStep
          rw [hp]
        rw [hstep]
        exact ih s hhit hno
      · cases ph with
        | ready =>
            have hstep : cacheStep producer now ttl k s i =
                { s with callers := s.callers.set i (.done v) } := by
              unfold cacheStep
              rw [hp, hhit]
            rw [hstep]
            have := ih { s with callers := s.callers.set i (.done v) } hhit
              (by
                intro j
                by_cases hij : i = j
                · subst hij
                  by_cases hlen : i < s.callers.length
                  · simp [List.getElem?_set_self hlen]
                  · rw [List.getElem?_set]
                    simp [hlen, hno i]
                · simpa [List.getElem?_set_ne hij] using hno j)
            simpa using this
        | producing => exact absurd hp (hno i)
        | done w =>
            have hstep : cacheStep producer now ttl k s i = s := by
              unfold cacheStep
              rw [hp]
            rw [hstep]
            exact ih s hhit hno

/-- C2, counterexample. The claim instantiated at two concurrent callers of
the cached session fetch whose cache checks both precede any write (both
miss an empty cache at the same instant): the code starts two producer
invocations, not the claimed single one. -/
theorem C2_counterexample_two_concurrent_misses_two_producers :
    (cacheRun "sessionData" 0 1800 "session:2024:1:Race"
      (initSys String 2) [0, 1]).produces = 2 ∧ (2 : Nat) ≠ 1 := by
  constructor
  · decide
  · decide

/-- C2, amended. The cached fetch has no in-flight dedup: each concurrent
caller that observes a miss invokes the producer itself, so `n` callers
whose checks all precede any write start `n` producer invocations; only a
caller whose check happens after a completed produce (within the TTL) is
served from the cache, so the fully sequential interleaving performs
exactly one producer invocation. -/
theorem C2_amended_miss_observers_each_produce {α : Type} (producer : α)
    (now ttl : Nat) (k : String) (n : Nat) (httl : 0 < ttl) (hn : 0 < n) :
    (cacheRun producer now ttl k (initSys α n) (stampedeSched n)).produces = n ∧
    (cacheRun producer now ttl k (initSys α n) (seqSched n)).produces = 1 := by
  constructor
  · have := cacheRun_checks_produce producer now ttl k (List.range n) (initSys α n)
      (by simp [initSys, redisGet, objGet])
      (by
        intro i hi
        have : i < n := List.mem_range.mp hi
        simp [initSys, List.getElem?_replicate, this])
      (List.nodup_range n)
    simpa [stampedeSched, initSys] using this
  · have hlen : (List.replicate n (CallerPhase.ready (α := α))).length = n := by
      simp
    have hstep1 : cacheStep producer now ttl k (initSys α n) 0 =
        ⟨[], (List.replicate n .ready).set 0 .producing, 1⟩ := by
      unfold cacheStep
      have h0 : (List.replicate n (CallerPhase.ready (α := α)))[0]? = some .ready := by
        simp [List.getElem?_replicate, hn]
      simp only [initSys]
      rw [h0]
      simp [redisGet, objGet]
    have hstep2 : cacheStep producer now ttl k
        (⟨[], (List.replicate n .ready).set 0 .producing, 1⟩ : CacheSys α) 0 =
        ⟨[(k, ⟨producer, now + ttl⟩)],
          (List.replicate n .ready).set 0 (.done producer), 1⟩ := by
      unfold cacheStep
      have h0 : ((List.replicate n (CallerPhase.ready (α := α))).set 0 .producing)[0]? =
          some .producing := by
        rw [List.getElem?_set_self]
        rw [hlen]
        exact hn
      rw [h0]
      simp [redisSetex, objSet, List.set_set]
    have hrun : cacheRun producer now ttl k (initSys α n) (seqSched n) =
        cacheRun producer now ttl k
          ⟨[(k, ⟨producer, now + ttl⟩)], (List.replicate n .ready).set 0 (.done producer), 1⟩
          ((List.range (n - 1)).map (fun i => i + 1)) := by
      simp only [seqSched, cacheRun, List.foldl_cons]
      rw [show (cacheStep producer now ttl k (cacheStep producer now ttl k (initSys α n) 0) 0) =
        ⟨[(k, ⟨producer, now + ttl⟩)], (List.replicate n .ready).set 0 (.done producer), 1⟩ from by
          rw [hstep1, hstep2]]
    rw [hrun]
    have := cacheRun_hits_no_produce producer producer now ttl k
      ((List.range (n - 1)).map (fun i => i + 1))
      ⟨[(k, ⟨producer, now + ttl⟩)], (List.replicate n .ready).set 0 (.done producer), 1⟩
      (by
        simp [redisGet, objGet]
        omega)
      (by
        intro i
        by_cases h0 : i = 0
        · subst h0
          rw [List.getElem?_set_self (by rw [hlen]; exact hn)]
          simp
        · rw [List.getElem?_set_ne (by omega)]
          rw [List.getElem?_replicate]
          by_cases hlt : i < n <;> simp [hlt])
    simpa using this

/-- C2, witness. Three sequential callers with TTL 1800 satisfy the
hypotheses; the amended theorem applies and its two counts evaluate. -/
theorem C2_amended_witness :
    (0 : Nat) < 1800 ∧ (0 : Nat) < 3 ∧
    ((cacheRun "v" 0 1800 "k" (initSys String 3) (stampedeSched 3)).produces = 3 ∧
      (cacheRun "v" 0 1800 "k" (initSys String 3) (seqSched 3)).produces = 1) :=
  ⟨by decide, by decide,
    C2_amended_miss_observers_each_produce "v" 0 1800 "k" 3 (by decide) (by decide)⟩

/-- Auxiliary: reading back the key just written. -/
theorem objGet_objSet_self {α : Type} (m : ObjMap α) (k : String) (v : α) :
    objGet (objSet m k v) k = some v := by
  induction m with
  | nil => simp [objSet, objGet]
  | cons p rest ih =>
      by_cases h : p.1 = k
      · simp [objSet, objGet, h]
      · simp [objSet, objGet, h, ih]

/-- Auxiliary: a `SETEX`-written entry is visible to `GET` exactly until
its expiry. -/
theorem redisGet_redisSetex_self {α : Type} (c : RCache α) (now ttl t : Nat)
    (k : String) (v : α) :
    redisGet (redisSetex c now ttl k v) t k =
      if t < now + ttl then some v else none := by
  unfold redisGet redisSetex
  rw [objGet_objSet_self]

/-- C3. Cache-hit correctness with the code's resource TTLs: after a first
call that misses (and, for the session aggregate, finds its session row so
the produce succeeds), any second call at a time `t` inside the TTL window
— 3600 s for schedule entries, 1800 s for full session aggregates, 5 s for
live snapshots — returns exactly the previously produced value with zero
producer runs and an unchanged cache, even against a changed store. -/
theorem C3_cache_hit_within_ttl_returns_cached
    (store store2 : Store)
    (schedCache : RCache (List ScheduleRowM)) (sessCache : RCache SessionDataM)
    (liveCache : RCache LiveDataM)
    (now t year round : Nat) (sessionType sessionKey : String)
    (sess : SessionRow) (rest : List SessionRow)
    (h1 : redisGet schedCache now ("schedule:" ++ toString year) = none)
    (h2 : redisGet sessCache now
      ("session:" ++ toString year ++ ":" ++ toString round ++ ":" ++ sessionType) = none)
    (h3 : redisGet liveCache now ("live:" ++ sessionKey) = none)
    (hs : store.f1_sessions.filter
      (fun s => decide (s.year = year ∧ s.round_number = round ∧ s.session_type = sessionType)) =
      sess :: rest) :
    (t < now + 3600 →
      mainGetSeasonSchedule store2 (mainGetSeasonSchedule store schedCache now year).cache t year =
        ⟨(mainGetSeasonSchedule store schedCache now year).value, 0,
          (mainGetSeasonSchedule store schedCache now year).cache⟩) ∧
    (t < now + 1800 →
      mainGetSessionData store2 (mainGetSessionData store sessCache now year round sessionType).cache
          t year round sessionType =
        ⟨(mainGetSessionData store sessCache now year round sessionType).value, 0,
          (mainGetSessionData store sessCache now year round sessionType).cache⟩) ∧
    (t < now + 5 →
      mainGetLiveData (mainGetLiveData liveCache now sessionKey).cache t sessionKey =
        ⟨(mainGetLiveData liveCache now sessionKey).value, 0,
          (mainGetLiveData liveCache now sessionKey).cache⟩) := by
  refine ⟨?_, ?_, ?_⟩
  · intro ht
    simp only [mainGetSeasonSchedule, h1]
    rw [redisGet_redisSetex_self]
    simp [ht]
  · intro ht
    simp only [mainGetSessionData, h2, hs]
    rw [redisGet_redisSetex_self]
    simp [ht]
  · intro ht
    simp only [mainGetLiveData, h3]
    rw [redisGet_redisSetex_self]
    simp [ht]

/-- A concrete store with one processed race session, used to instantiate
the cache-hit theorem. -/
def sessC3 : SessionRow :=
  ⟨1, 2024, 1, "Race", "Bahrain Grand Prix", some "bahrain", some "Bahrain",
    some "Sakhir", some 1709400000, none, none, true, 0⟩

/-- The store holding just `sessC3`. -/
def storeC3 : Store :=
  ⟨[sessC3], [], [], [], [], [], []⟩

/-- C3, witness: at the concrete store, empty caches, first call at time 0
and second call at time 1, every hypothesis holds and each of the three
second calls performs zero producer runs. -/
theorem C3_witness :
    (mainGetSeasonSchedule storeC3
      (mainGetSeasonSchedule storeC3 [] 0 2024).cache 1 2024).producerRuns = 0 ∧
    (mainGetSessionData storeC3
      (mainGetSessionData storeC3 [] 0 2024 1 "Race").cache 1 2024 1 "Race").producerRuns = 0 ∧
    (mainGetLiveData (mainGetLiveData [] 0 "9158").cache 1 "9158").producerRuns = 0 := by
  have h := C3_cache_hit_within_ttl_returns_cached storeC3 storeC3 [] [] [] 0 1 2024 1
    "Race" "9158" sessC3 [] (by decide) (by decide) (by decide) (by decide)
  refine ⟨?_, ?_, ?_⟩
  · rw [h.1 (by decide)]
  · rw [h.2.1 (by decide)]
  · rw [h.2.2 (by decide)]

/-- A lap row with only the identifying columns and the lap time set. -/
def mkLap (lid sid : Nat) (num : String) (lapno : Nat) (time : Option ℚ) : LapRow :=
  ⟨lid, sid, num, lapno, time, none, none, none, none, none, none, none,
    some "SOFT", some 1, some 1, some 1, none, none, false, 0⟩

/-- A concrete store with one race session and two competitors, each with
one timed lap: the failing input for the determinism claim. -/
def storeC1 : Store :=
  ⟨[⟨1, 2024, 1, "Race", "Bahrain Grand Prix", some "bahrain", some "Bahrain",
      some "Sakhir", some 1709400000, none, none, true, 0⟩],
    [⟨"1", some "VER", some "Max Verstappen", none, none, some "NED", none, true⟩,
      ⟨"44", some "HAM", some "Lewis Hamilton", none, none, some "GBR", none, true⟩],
    [], [mkLap 1 1 "1" 1 (some 90), mkLap 2 1 "44" 1 (some 91)], [], [], []⟩

/-- The `Math.random()` stream drawing 0 forever. -/
def randZero : Nat → ℚ := fun _ => 0

/-- The `Math.random()` stream drawing 1/2 forever. -/
def randHalf : Nat → ℚ := fun _ => 1/2

/-- Projection of a session response onto its `timing` array (empty for an
error response). -/
def timingOf (e : Except ErrOut SessionOut) : List TimingEntry :=
  match e with
  | .ok d => d.timing
  | .error _ => []

set_option maxRecDepth 8000 in
/-- C1. The GET session handler is not deterministic in its inputs: at the
same store (one session, two competitors with laps) and the same request
parameters, two runs whose `Math.random()` draws differ produce different
response bodies — the non-leader gap string and the tyre-life values are
derived from the random source, so the output is not byte-identical across
invocations with identical session, driver and lap rows. -/
theorem C1_session_view_depends_on_random_source :
    timingOf (f1SessionHandler storeC1 randZero (some 2024) (some 1) "Race") ≠
      timingOf (f1SessionHandler storeC1 randHalf (some 2024) (some 1) "Race") := by
  with_unfolding_all decide

/-- A store with no rows at all. -/
def storeC7 : Store :=
  ⟨[], [], [], [], [], [], []⟩

/-- C7, counterexample. A schedule request for year 2099 against the empty
store: the routes/f1.ts handler answers success with the empty list — not
the claimed deterministic synthetic 8-round placeholder calendar — and the
part_000 variant likewise answers success with the empty list plus a
`No sessions found` message. -/
theorem C7_counterexample_empty_store_schedule_is_empty_list :
    f1ScheduleHandler storeC7 (some 2099) = .ok [] ∧
    part000ScheduleHandler storeC7 (some 2099) =
      .ok ([], some "No sessions found for 2099") :=
  ⟨rfl, rfl⟩

/-- C7, amended. For every year with no session rows in the store, the
schedule operation returns HTTP success carrying the empty list (the
part_000 variant additionally a `No sessions found for {year}` message) —
not an error, but also not a synthetic calendar: no fallback synthesis
exists in the code. -/
theorem C7_amended_empty_year_schedule_is_empty_success
    (store : Store) (y : Nat)
    (h : store.f1_sessions.filter (fun s => decide (s.year = y)) = []) :
    f1ScheduleHandler store (some y) = .ok [] ∧
    part000ScheduleHandler store (some y) =
      .ok ([], some ("No sessions found for " ++ toString y)) := by
  have hall : ∀ s ∈ store.f1_sessions, ¬(s.year = y) := by
    intro s hs
    have := (List.filter_eq_nil_iff).mp h s hs
    simpa using this
  have hrace : store.f1_sessions.filter
      (fun s => decide (s.year = y ∧ s.session_type = "Race")) = [] := by
    rw [List.filter_eq_nil_iff]
    intro s hs
    simp only [decide_eq_true_eq, not_and]
    intro hy
    exact absurd hy (hall s hs)
  constructor
  · simp only [f1ScheduleHandler]
    rw [hrace]
    simp [List.sortBy, List.insertionSort]
  · simp only [part000ScheduleHandler]
    rw [h]
    simp [List.sortBy, List.insertionSort]

/-- C7, witness. The amended theorem applied at the empty store and year
2099, its hypothesis discharged by evaluation. -/
theorem C7_amended_witness :
    f1ScheduleHandler storeC7 (some 2099) = .ok [] ∧
    part000ScheduleHandler storeC7 (some 2099) =
      .ok ([], some ("No sessions found for " ++ toString 2099)) :=
  C7_amended_empty_year_schedule_is_empty_success storeC7 2099 rfl

/-- A store holding one race session row and no lap rows at all. -/
def storeC6 : Store :=
  ⟨[⟨1, 2024, 1, "Race", "Bahrain Grand Prix", some "bahrain", some "Bahrain",
      some "Sakhir", some 1709400000, none, none, false, 0⟩],
    [], [], [], [], [], []⟩

/-- C6, counterexample. A session that exists in the store with zero lap
rows: the GET session handler answers success — but with zero competitors
(empty `drivers` object), not the claimed at-least-one synthesised
competitor. -/
theorem C6_counterexample_zero_laps_zero_competitors :
    (f1SessionHandler storeC6 randZero (some 2024) (some 1) "Race").toOption.map
      (fun d => d.drivers.length) = some 0 ∧ ¬(1 ≤ 0) :=
  ⟨rfl, by decide⟩

/-- C6, amended. For every existing session with zero lap rows, the GET
session handler still returns a well-formed 200 `SessionView` and never an
error — but the view has zero competitors: its `drivers` object and its
`timing` array are both empty. No fallback synthesis exists in the code. -/
theorem C6_amended_zero_laps_wellformed_but_empty
    (store : Store) (rand : Nat → ℚ) (y r : Nat) (t : String)
    (sess : SessionRow) (rest : List SessionRow)
    (hfind : store.f1_sessions.filter
      (fun s => decide (s.year = y ∧ s.round_number = r ∧ s.session_type = t)) = sess :: rest)
    (hlaps : sessionLaps store sess.id = []) :
    (f1SessionHandler store rand (some y) (some r) t).toOption.map
      (fun d => (d.drivers, d.timing)) = some ([], []) := by
  simp only [f1SessionHandler]
  rw [hfind]
  simp only [driversQuery, lapTimesQuery]
  rw [hlaps]
  simp [buildDriversData, addLaps, timingData, timingGo, List.sortBy,
    List.insertionSort, Except.toOption]

/-- C6, witness. The amended theorem applied at the concrete store with an
existing session and no laps, hypotheses discharged by evaluation. -/
theorem C6_amended_witness :
    (f1SessionHandler storeC6 randHalf (some 2024) (some 1) "Race").toOption.map
      (fun d => (d.drivers, d.timing)) = some ([], []) :=
  C6_amended_zero_laps_wellformed_but_empty storeC6 randHalf 2024 1 "Race"
    ⟨1, 2024, 1, "Race", "Bahrain Grand Prix", some "bahrain", some "Bahrain",
      some "Sakhir", some 1709400000, none, none, false, 0⟩ [] rfl rfl

/-- A store holding one race session and no telemetry rows. -/
def storeC8 : Store :=
  ⟨[⟨1, 2024, 1, "Race", "Bahrain Grand Prix", some "bahrain", some "Bahrain",
      some "Sakhir", some 1709400000, none, none, true, 0⟩],
    [], [], [], [], [], []⟩

/-- C8, counterexample. The session exists but no telemetry sample exists
for driver `1`: `getTelemetryData` succeeds with the synthetic mock
payload (served as HTTP 200) instead of the claimed 404 `no telemetry`
failure — and the routes/f1.ts telemetry handler answers 200 mock data
unconditionally. -/
theorem C8_counterexample_missing_sample_returns_mock :
    getTelemetryData storeC8 2024 1 "Race" "1" = some .mock ∧
    f1TelemetryHandler storeC8 "2024" "1" "Race" "1" = .ok .mock ∧
    (some TelemetryResult.mock ≠ (none : Option TelemetryResult)) :=
  ⟨rfl, rfl, by simp⟩

/-- C8, amended. The telemetry read returns a not-found result only when
the (year, round, kind) session itself is absent; when the session exists,
it returns the newest stored telemetry sample if one exists and otherwise
succeeds with the synthetic mock payload (HTTP 200) — never a 404 for a
merely missing sample. The routes/f1.ts handler never consults the store
at all. -/
theorem C8_amended_telemetry_mock_when_no_sample
    (store : Store) (year round : Nat) (st dr : String) :
    (store.f1_sessions.filter
        (fun s => decide (s.year = year ∧ s.round_number = round ∧ s.session_type = st)) = [] →
      getTelemetryData store year round st dr = none) ∧
    (∀ sess rest, store.f1_sessions.filter
        (fun s => decide (s.year = year ∧ s.round_number = round ∧ s.session_type = st)) =
        sess :: rest →
      (store.telemetry_data.filter
          (fun td => decide (td.session_id = sess.id ∧ td.driver_number = dr)) = [] →
        getTelemetryData store year round st dr = some .mock) ∧
      (∀ row rows, (store.telemetry_data.filter
          (fun td => decide (td.session_id = sess.id ∧ td.driver_number = dr))).sortBy
          (fun a b => decide (b.created_at ≤ a.created_at)) = row :: rows →
        getTelemetryData store year round st dr = some (.stored row.data))) := by
  refine ⟨?_, ?_⟩
  · intro h
    simp only [getTelemetryData]
    rw [h]
  · intro sess rest hfind
    refine ⟨?_, ?_⟩
    · intro hempty
      simp only [getTelemetryData]
      rw [hfind]
      dsimp only
      rw [hempty]
      simp [List.sortBy, List.insertionSort]
    · intro row rows hsorted
      simp only [getTelemetryData]
      rw [hfind]
      dsimp only
      rw [hsorted]
      simp

/-- A store with one race session and one stored telemetry row for driver
`1`. -/
def storeC8w : Store :=
  ⟨[⟨1, 2024, 1, "Race", "Bahrain Grand Prix", some "bahrain", some "Bahrain",
      some "Sakhir", some 1709400000, none, none, true, 0⟩],
    [], [], [], [⟨1, 1, "1", some 1, some "fastest_lap", "blob", 5⟩], [], []⟩

/-- C8, witness. The amended theorem applied at concrete stores: the
session-absent case yields a not-found result, the sample-absent case
yields the mock, and the stored case yields the stored payload. -/
theorem C8_amended_witness :
    getTelemetryData storeC8w 2025 1 "Race" "1" = none ∧
    getTelemetryData storeC8w 2024 1 "Race" "9" = some .mock ∧
    getTelemetryData storeC8w 2024 1 "Race" "1" = some (.stored "blob") := by
  refine ⟨?_, ?_, ?_⟩
  · exact (C8_amended_telemetry_mock_when_no_sample storeC8w 2025 1 "Race" "1").1 rfl
  · exact (((C8_amended_telemetry_mock_when_no_sample storeC8w 2024 1 "Race" "9").2
      ⟨1, 2024, 1, "Race", "Bahrain Grand Prix", some "bahrain", some "Bahrain",
        some "Sakhir", some 1709400000, none, none, true, 0⟩ [] rfl).1) rfl
  · exact (((C8_amended_telemetry_mock_when_no_sample storeC8w 2024 1 "Race" "1").2
      ⟨1, 2024, 1, "Race", "Bahrain Grand Prix", some "bahrain", some "Bahrain",
        some "Sakhir", some 1709400000, none, none, true, 0⟩ [] rfl).2)
      ⟨1, 1, "1", some 1, some "fastest_lap", "blob", 5⟩ [] rfl

/-- Auxiliary: sorting is a permutation, so membership is preserved. -/
theorem mem_sortBy {α : Type} {a : α} {l : List α} {le : α → α → Bool} :
    a ∈ l.sortBy le ↔ a ∈ l :=
  (List.perm_insertionSort _ _).mem_iff

/-- C9. Every session row returned by either session-listing operation
(`F1Service.getAllSessions` and the GET `/sessions` handler) has its
`is_processed` flag true, for every combination of the optional year,
session-type and limit filters: an unprocessed session never appears in a
listing. -/
theorem C9_listings_only_processed_sessions
    (store : Store) (year : Option Nat) (session_type : Option String)
    (limit : Nat) (s : SessionRow) :
    (s ∈ getAllSessions store year session_type limit → s.is_processed = true) ∧
    (s ∈ f1SessionsHandler store year session_type limit → s.is_processed = true) := by
  constructor
  · intro h
    have h2 := mem_sortBy.mp (List.mem_of_mem_take h)
    have h3 := (List.mem_filter.mp h2).2
    simp only [sessionListPred, Bool.and_eq_true] at h3
    exact h3.1.1
  · intro h
    have h2 := mem_sortBy.mp (List.mem_of_mem_take h)
    have h3 := (List.mem_filter.mp h2).2
    simp only [sessionListPred, Bool.and_eq_true] at h3
    exact h3.1.1

/-- The processed session row of the C9 witness store. -/
def sessC9 : SessionRow :=
  ⟨1, 2024, 1, "Race", "Bahrain Grand Prix", some "bahrain", some "Bahrain",
    some "Sakhir", some 1709400000, none, none, true, 0⟩

/-- A store with one processed and one unprocessed session. -/
def storeC9 : Store :=
  ⟨[sessC9,
    ⟨2, 2024, 2, "Race", "Saudi Arabian Grand Prix", some "jeddah", some "Saudi Arabia",
      some "Jeddah", some 1710000000, none, none, false, 0⟩],
    [], [], [], [], [], []⟩

/-- C9, witness. The processed row is a member of both listings at
concrete filters, and the theorem yields its processed flag. -/
theorem C9_witness :
    (sessC9 ∈ getAllSessions storeC9 none none 50 ∧ sessC9.is_processed = true) ∧
    (sessC9 ∈ f1SessionsHandler storeC9 (some 2024) none 50 ∧ sessC9.is_processed = true) :=
  ⟨⟨by decide, (C9_listings_only_processed_sessions storeC9 none none 50 sessC9).1 (by decide)⟩,
    ⟨by decide, (C9_listings_only_processed_sessions storeC9 (some 2024) none 50 sessC9).2 (by decide)⟩⟩

/-- The specification's fastest lap, stated in its words: the minimum of
the lap times over exactly the laps whose lap time is present; absent when
there is none. Used to compare the code's aggregations against the claim. -/
def specFastestLap (laps : List (Option ℚ)) : Option ℚ :=
  (laps.filterMap id).min?

/-- Auxiliary: the running SQL-MIN fold started from a value. -/
theorem foldl_optmin_some (l : List ℚ) (a : ℚ) :
    l.foldl
      (fun acc t =>
        match acc with
        | none => some t
        | some m => some (min m t)) (some a) = some (l.foldl min a) := by
  induction l generalizing a with
  | nil => simp
  | cons x l ih => simp [List.foldl_cons, ih]

/-- Auxiliary: the SQL `MIN` aggregate equals the minimum of the present
values. -/
theorem sqlMin_eq_specFastestLap (l : List (Option ℚ)) :
    sqlMin l = specFastestLap l := by
  unfold sqlMin specFastestLap
  cases h : l.filterMap id with
  | nil => simp [List.min?]
  | cons a as =>
      simp only [List.min?, List.foldl_cons]
      exact foldl_optmin_some as a

/-- Auxiliary: the JavaScript reduce, projected onto lap times, computes
the running minimum when every lap time is present. -/
theorem jsFold_lapTime (l : List LapJsonM) (a : LapJsonM) (ta : ℚ)
    (ha : a.lap_time = some ta)
    (hl : ∀ x ∈ l, (x.lap_time).isSome = true) :
    (l.foldl jsPickFaster (some a)).bind (fun x => x.lap_time) =
      some (l.foldl (fun m x => min m (x.lap_time.getD 0)) ta) := by
  induction l generalizing a ta with
  | nil => simp [ha]
  | cons x l ih =>
      obtain ⟨tx, hx⟩ := Option.isSome_iff_exists.mp (hl x (List.mem_cons_self x l))
      have hstep : jsPickFaster (some a) x =
          if tx < ta then some x else some a := by
        simp [jsPickFaster, ha, hx]
      simp only [List.foldl_cons, hstep]
      by_cases hlt : tx < ta
      · simp only [hlt, if_true]
        rw [ih x tx hx (fun y hy => hl y (List.mem_cons_of_mem x hy))]
        have : min ta (x.lap_time.getD 0) = tx := by
          rw [hx]
          simp only [Option.getD_some]
          exact min_eq_right (le_of_lt hlt)
        rw [this]
      · simp only [hlt, if_false]
        rw [ih a ta ha (fun y hy => hl y (List.mem_cons_of_mem x hy))]
        have : min ta (x.lap_time.getD 0) = ta := by
          rw [hx]
          simp only [Option.getD_some]
          exact min_eq_left (le_of_not_lt hlt)
        rw [this]

/-- Auxiliary: the running minimum over present lap times equals the fold
over the extracted values. -/
theorem foldl_min_getD_eq_filterMap (l : List LapJsonM) (ta : ℚ)
    (hl : ∀ x ∈ l, (x.lap_time).isSome = true) :
    l.foldl (fun m x => min m (x.lap_time.getD 0)) ta =
      (l.filterMap (fun x => x.lap_time)).foldl min ta := by
  induction l generalizing ta with
  | nil => simp
  | cons x l ih =>
      obtain ⟨tx, hx⟩ := Option.isSome_iff_exists.mp (hl x (List.mem_cons_self x l))
      simp only [List.foldl_cons, List.filterMap_cons, hx, Option.getD_some]
      exact ih (min ta tx) (fun y hy => hl y (List.mem_cons_of_mem x hy))

/-- Auxiliary: a fold of `min` lands on the initial value or a list
element. -/
theorem foldl_min_mem (l : List ℚ) (a : ℚ) :
    l.foldl min a = a ∨ l.foldl min a ∈ l := by
  induction l generalizing a with
  | nil => simp
  | cons x l ih =>
      simp only [List.foldl_cons]
      rcases ih (min a x) with h | h
      · rcases min_choice a x with hm | hm
        · left
          rw [h, hm]
        · right
          rw [h, hm]
          exact List.mem_cons_self x l
      · right
        exact List.mem_cons_of_mem x h

/-- Auxiliary: the JavaScript fastest-lap computation equals the minimum
over the truthy (present and non-zero) lap times. -/
theorem jsFastest_eq_specFastestLap (laps : List LapJsonM) :
    jsNumOrNull ((jsFastestLapOf laps).bind (fun l => l.lap_time)) =
      specFastestLap ((laps.filter jsTruthyLapTime).map (fun x => x.lap_time)) := by
  have htruthy : ∀ x ∈ laps.filter jsTruthyLapTime, ∃ t, x.lap_time = some t ∧ t ≠ 0 := by
    intro x hx
    have := (List.mem_filter.mp hx).2
    unfold jsTruthyLapTime at this
    cases hxt : x.lap_time with
    | none => rw [hxt] at this; simp at this
    | some t =>
        rw [hxt] at this
        simp only [decide_eq_true_eq] at this
        exact ⟨t, rfl, this⟩
  unfold jsFastestLapOf specFastestLap
  rw [List.filterMap_map]
  cases hfl : laps.filter jsTruthyLapTime with
  | nil => simp [jsNumOrNull, List.min?]
  | cons a as =>
      obtain ⟨ta, ha, hta⟩ := htruthy a (by rw [hfl]; exact List.mem_cons_self a as)
      have hsome : ∀ x ∈ as, (x.lap_time).isSome = true := by
        intro x hx
        obtain ⟨t, ht, _⟩ := htruthy x (by rw [hfl]; exact List.mem_cons_of_mem a hx)
        simp [ht]
      have hfirst : jsPickFaster none a = some a := rfl
      simp only [List.foldl_cons, hfirst]
      rw [jsFold_lapTime as a ta ha hsome]
      rw [foldl_min_getD_eq_filterMap as ta hsome]
      have hval := foldl_min_mem (as.filterMap (fun x => x.lap_time)) ta
      have hne : (as.filterMap (fun x => x.lap_time)).foldl min ta ≠ 0 := by
        rcases hval with h | h
        · rw [h]; exact hta
        · obtain ⟨x, hx, hxt⟩ := List.mem_filterMap.mp h
          obtain ⟨t, ht, htne⟩ := htruthy x (by rw [hfl]; exact List.mem_cons_of_mem a hx)
          rw [ht] at hxt
          cases hxt
          exact htne
      simp only [jsNumOrNull, hne, if_false]
      simp [Function.id_comp, ha, List.min?]

/-- Auxiliary: an element of a written object is an old element or the
written pair. -/
theorem mem_objSet {α : Type} {p : String × α} {m : ObjMap α} {k : String} {v : α}
    (h : p ∈ objSet m k v) : p ∈ m ∨ p = (k, v) := by
  induction m with
  | nil =>
      simp [objSet] at h
      right
      simp [h]
  | cons q rest ih =>
      by_cases hq : q.1 = k
      · simp only [objSet, hq, if_true] at h
        rcases List.mem_cons.mp h with h | h
        · right; exact h
        · left; exact List.mem_cons_of_mem q h
      · simp only [objSet, hq, if_false] at h
        rcases List.mem_cons.mp h with h | h
        · left; rw [h]; exact List.mem_cons_self q rest
        · rcases ih h with h | h
          · left; exact List.mem_cons_of_mem q h
          · right; exact h

/-- Auxiliary: a fold of keyed writes preserves a property that holds of
every written pair. -/
theorem foldl_objSet_preserves {α β : Type} (P : String × α → Prop)
    (f : β → String × α) (hf : ∀ b, P (f b)) :
    ∀ (l : List β) (m : ObjMap α), (∀ p ∈ m, P p) →
      ∀ p ∈ l.foldl (fun acc b => objSet acc (f b).1 (f b).2) m, P p := by
  intro l
  induction l with
  | nil => intro m hm p hp; exact hm p hp
  | cons b l ih =>
      intro m hm p hp
      simp only [List.foldl_cons] at hp
      refine ih (objSet m (f b).1 (f b).2) ?_ p hp
      intro q hq
      rcases mem_objSet hq with h | h
      · exact hm q h
      · rw [h, show ((f b).1, (f b).2) = f b from rfl]
        exact hf b

/-- Auxiliary: every entry of main.js `driversData` carries the fastest
lap computed by the JavaScript reduce over its own laps array. -/
theorem mainGetDriversData_entries (store : Store) (sid : Nat) :
    ∀ p ∈ mainGetDriversData store sid,
      p.2.fastest_lap = jsNumOrNull ((jsFastestLapOf p.2.laps).bind (fun l => l.lap_time)) := by
  unfold mainGetDriversData
  exact foldl_objSet_preserves
    (fun (p : String × DriverEntryM) =>
      p.2.fastest_lap = jsNumOrNull ((jsFastestLapOf p.2.laps).bind (fun l => l.lap_time)))
    (fun (d : DriverRow) =>
      let laps := (((sessionLaps store sid).filter
          (fun lt => decide (lt.driver_number = d.driver_number))).sortBy byLapNumber).map toLapJsonM
      (d.driver_number,
        { driver_number := d.driver_number
          name := d.full_name
          abbreviation := d.driver_code
          team := match teamOf store d with
            | none => none
            | some t => t.team_name
          team_color := match teamOf store d with
            | none => none
            | some t => t.team_color
          country_code := d.nationality
          laps := laps
          fastest_lap := jsNumOrNull ((jsFastestLapOf laps).bind (fun l => l.lap_time)) }))
    (fun _ => rfl)
    _ [] (by simp)

/-- C4, amended. In the SQL aggregation of routes/f1.ts, each competitor's
reported fastest lap is the minimum over exactly the laps whose lap time
is present (SQL `MIN` ignores NULLs), absent when there is none. In the
JavaScript aggregation of main.js, the reported fastest lap is the minimum
over the laps whose lap time is present *and non-zero* (the reduce's
truthiness filter drops a stored `0`), absent when there is none — so it
is never zero and never infinity, but a present lap time of `0` is treated
as absent rather than participating in the minimum. -/
theorem C4_amended_fastest_lap_minimum (store : Store) (sid : Nat) :
    (∀ row ∈ driversQuery store sid,
      row.fastest_lap = specFastestLap (((sessionLaps store sid).filter
        (fun lt => decide (aggKeyOf store lt.driver_number = row.key))).map
          (fun lt => lt.lap_time))) ∧
    (∀ p ∈ mainGetDriversData store sid,
      p.2.fastest_lap = specFastestLap ((p.2.laps.filter jsTruthyLapTime).map
        (fun x => x.lap_time))) := by
  constructor
  · intro row h
    simp only [driversQuery] at h
    obtain ⟨k, hk, rfl⟩ := List.mem_map.mp (mem_sortBy.mp h)
    dsimp only
    rw [sqlMin_eq_specFastestLap]
  · intro p hp
    rw [mainGetDriversData_entries store sid p hp]
    exact jsFastest_eq_specFastestLap p.2.laps

/-- A store whose single competitor has exactly one lap, with the present
(stored) lap time `0.000`. -/
def storeC4 : Store :=
  ⟨[⟨1, 2024, 1, "Race", "Bahrain Grand Prix", some "bahrain", some "Bahrain",
      some "Sakhir", some 1709400000, none, none, true, 0⟩],
    [⟨"7", some "RIC", some "Daniel Ricciardo", none, none, some "AUS", none, true⟩],
    [], [mkLap 1 1 "7" 1 (some 0)], [], [], []⟩

/-- C4, counterexample. Competitor `7` has one lap whose lap time is
present (the stored DECIMAL `0.000`): the claim says the reported fastest
lap is the minimum over the present lap times, i.e. `0`; the JavaScript
aggregation reports `null` instead, because its truthiness filter drops
the zero lap time. -/
theorem C4_counterexample_zero_lap_time_reported_absent :
    (objGet (mainGetDriversData storeC4 1) "7").map (fun e => e.fastest_lap) =
      some none ∧
    (objGet (mainGetDriversData storeC4 1) "7").map
      (fun e => specFastestLap (e.laps.map (fun l => l.lap_time))) =
      some (some 0) ∧
    some (none : Option ℚ) ≠ some (some (0 : ℚ)) := by
  refine ⟨?_, ?_, by simp⟩
  · with_unfolding_all decide
  · with_unfolding_all decide

/-- The single aggregated driver row of the C4 witness store. -/
def rowC4w : DriverAggRow :=
  ⟨⟨some "1", some "VER", some "Max Verstappen", none, none, some "NED", none, none⟩,
    2, some 90⟩

/-- The main.js drivers-data entry of the C4 witness store. -/
def entryC4w : DriverEntryM :=
  { driver_number := "1"
    name := some "Max Verstappen"
    abbreviation := some "VER"
    team := none
    team_color := none
    country_code := some "NED"
    laps := [toLapJsonM (mkLap 3 1 "1" 1 (some 91)), toLapJsonM (mkLap 4 1 "1" 2 (some 90))]
    fastest_lap := some 90 }

/-- A store with one competitor and two timed laps (91 and 90 seconds). -/
def storeC4w : Store :=
  ⟨[⟨1, 2024, 1, "Race", "Bahrain Grand Prix", some "bahrain", some "Bahrain",
      some "Sakhir", some 1709400000, none, none, true, 0⟩],
    [⟨"1", some "VER", some "Max Verstappen", none, none, some "NED", none, true⟩],
    [], [mkLap 3 1 "1" 1 (some 91), mkLap 4 1 "1" 2 (some 90)], [], [], []⟩

/-- C4, witness. Both membership hypotheses hold at the concrete store and
the amended theorem yields both reported fastest laps as the respective
minima. -/
theorem C4_amended_witness :
    (rowC4w ∈ driversQuery storeC4w 1 ∧
      rowC4w.fastest_lap = specFastestLap (((sessionLaps storeC4w 1).filter
        (fun lt => decide (aggKeyOf storeC4w lt.driver_number = rowC4w.key))).map
          (fun lt => lt.lap_time))) ∧
    (("1", entryC4w) ∈ mainGetDriversData storeC4w 1 ∧
      entryC4w.fastest_lap = specFastestLap ((entryC4w.laps.filter jsTruthyLapTime).map
        (fun x => x.lap_time))) := by
  refine ⟨⟨?_, ?_⟩, ⟨?_, ?_⟩⟩
  · with_unfolding_all decide
  · exact (C4_amended_fastest_lap_minimum storeC4w 1).1 rowC4w (by with_unfolding_all decide)
  · with_unfolding_all decide
  · exact (C4_amended_fastest_lap_minimum storeC4w 1).2 ("1", entryC4w)
      (by with_unfolding_all decide)

/-- Stated from the specification's words, for comparison with the code:
the gap the claim prescribes for the timing entry at index `i ≥ 1` — its
delta to the immediately faster competitor's current lap (the `lap_time`
carried by the neighbouring entry), rendered the way the code renders
gaps. -/
def specDeltaGap (t : List TimingEntry) (i : Nat) : Option String :=
  match t[i]?, t[i - 1]? with
  | some cur, some prev =>
      match cur.lap_time, prev.lap_time with
      | some a, some b => some ("+" ++ toFixed3 (a - b))
      | _, _ => none
  | _, _ => none

/-- A store with one race session and two competitors whose fastest laps
are 90.5 s and 90.7 s. -/
def storeC5 : Store :=
  ⟨[⟨1, 2024, 1, "Race", "Bahrain Grand Prix", some "bahrain", some "Bahrain",
      some "Sakhir", some 1709400000, none, none, true, 0⟩],
    [⟨"1", some "VER", some "Max Verstappen", none, none, some "NED", none, true⟩,
      ⟨"44", some "HAM", some "Lewis Hamilton", none, none, some "GBR", none, true⟩],
    [], [mkLap 1 1 "1" 1 (some (181/2)), mkLap 2 1 "44" 1 (some (907/10))],
    [], [], []⟩

set_option maxRecDepth 8000 in
/-- C5, counterexample. With fastest laps 90.5 and 90.7 and the all-zero
random stream, the second timing entry's gap is the synthetic `"+0.000"`,
while the claim prescribes the delta to the immediately faster
competitor's current lap, `"+0.200"`. -/
theorem C5_counterexample_gap_is_not_delta :
    (timingOf (f1SessionHandler storeC5 randZero (some 2024) (some 1) "Race")).map
      (fun e => e.gap) = ["LEADER", "+0.000"] ∧
    specDeltaGap (timingOf (f1SessionHandler storeC5 randZero (some 2024) (some 1) "Race")) 1 =
      some "+0.200" ∧
    ("+0.000" : String) ≠ "+0.200" := by
  refine ⟨?_, ?_, by decide⟩
  · with_unfolding_all decide
  · with_unfolding_all decide

/-- Auxiliary: the gap of the timing entry at absolute index `i + j`. -/
theorem timingGo_gap (rand : Nat → ℚ) :
    ∀ (rows : List DriverAggRow) (i j : Nat) (e : TimingEntry),
      (timingGo rand i rows)[j]? = some e →
      e.gap = if i + j = 0 then "LEADER"
        else "+" ++ toFixed3 (rand (2 * (i + j) - 1) * 30) := by
  intro rows
  induction rows with
  | nil => intro i j e h; simp [timingGo] at h
  | cons row rest ih =>
      intro i j e h
      cases j with
      | zero =>
          simp only [timingGo, List.getElem?_cons_zero, Option.some.injEq] at h
          subst h
          simp
      | succ j =>
          simp only [timingGo, List.getElem?_cons_succ] at h
          have := ih (i + 1) j e h
          have harith : i + 1 + j = i + (j + 1) := by omega
          rw [harith] at this
          rw [this]

/-- Auxiliary: the timing array carries each ranked row's fastest lap as
its `lap_time`, in row order. -/
theorem timingGo_map_lap_time (rand : Nat → ℚ) :
    ∀ (rows : List DriverAggRow) (i : Nat),
      (timingGo rand i rows).map (fun e => e.lap_time) =
        rows.map (fun r => r.fastest_lap) := by
  intro rows
  induction rows with
  | nil => intro i; simp [timingGo]
  | cons row rest ih => intro i; simp [timingGo, ih]

/-- Auxiliary: the NULLS-LAST fastest-lap comparison is total. -/
theorem fastestLapLe_total (a b : Option ℚ) :
    fastestLapLe a b = true ∨ fastestLapLe b a = true := by
  cases a with
  | none =>
      cases b with
      | none => left; rfl
      | some y => right; rfl
  | some x =>
      cases b with
      | none => left; rfl
      | some y =>
          rcases le_total x y with h | h
          · left; simpa [fastestLapLe] using h
          · right; simpa [fastestLapLe] using h

/-- Auxiliary: the NULLS-LAST fastest-lap comparison is transitive. -/
theorem fastestLapLe_trans (a b c : Option ℚ)
    (hab : fastestLapLe a b = true) (hbc : fastestLapLe b c = true) :
    fastestLapLe a c = true := by
  cases a with
  | none =>
      cases b with
      | none =>
          cases c with
          | none => rfl
          | some z => simp [fastestLapLe] at hbc
      | some y => simp [fastestLapLe] at hab
  | some x =>
      cases c with
      | none => rfl
      | some z =>
          cases b with
          | none => simp [fastestLapLe] at hbc
          | some y =>
              simp only [fastestLapLe, decide_eq_true_eq] at hab hbc ⊢
              exact le_trans hab hbc

/-- C5, amended. In every session view the timing sequence is ranked
ascending by fastest lap with absent values last (the `lap_time` carried by
consecutive entries respects the NULLS-LAST comparison); the first entry's
gap is the sentinel `"LEADER"`; and every later entry's gap is a synthetic
placeholder — `"+"` followed by that entry's fresh random draw scaled by 30
and rendered to three decimals — not a delta to the immediately faster
competitor's lap. -/
theorem C5_amended_ranking_and_synthetic_gaps
    (store : Store) (sid : Nat) (rand : Nat → ℚ) :
    List.Pairwise (fun a b => fastestLapLe a.lap_time b.lap_time = true)
      (timingData (driversQuery store sid) rand) ∧
    (∀ e, (timingData (driversQuery store sid) rand)[0]? = some e → e.gap = "LEADER") ∧
    (∀ j e, (timingData (driversQuery store sid) rand)[j]? = some e → 0 < j →
      e.gap = "+" ++ toFixed3 (rand (2 * j - 1) * 30)) := by
  refine ⟨?_, ?_, ?_⟩
  · have hsorted : List.Pairwise
        (fun a b : DriverAggRow => fastestLapLe a.fastest_lap b.fastest_lap = true)
        (driversQuery store sid) := by
      simp only [driversQuery]
      haveI htot : IsTotal DriverAggRow
          (fun a b => fastestLapLe a.fastest_lap b.fastest_lap = true) :=
        ⟨fun a b => fastestLapLe_total a.fastest_lap b.fastest_lap⟩
      haveI htr : IsTrans DriverAggRow
          (fun a b => fastestLapLe a.fastest_lap b.fastest_lap = true) :=
        ⟨fun a b c => fastestLapLe_trans a.fastest_lap b.fastest_lap c.fastest_lap⟩
      exact List.sorted_insertionSort _ _
    have hmap := timingGo_map_lap_time rand (driversQuery store sid) 0
    have : List.Pairwise (fun a b : Option ℚ => fastestLapLe a b = true)
        ((timingData (driversQuery store sid) rand).map (fun e => e.lap_time)) := by
      rw [timingData, hmap]
      exact List.pairwise_map.mpr hsorted
    exact List.pairwise_map.mp this
  · intro e h
    have := timingGo_gap rand (driversQuery store sid) 0 0 e h
    simpa using this
  · intro j e h hj
    have := timingGo_gap rand (driversQuery store sid) 0 j e h
    rw [Nat.zero_add] at this
    rw [this]
    simp [Nat.pos_iff_ne_zero.mp hj]

/-- The leader timing entry of the C5 store under the all-zero stream. -/
def e0C5 : TimingEntry :=
  ⟨some "1", 1, "LEADER", some (181/2), none, none, none, "MEDIUM", 1⟩

/-- The second timing entry of the C5 store under the all-zero stream. -/
def e1C5 : TimingEntry :=
  ⟨some "44", 2, "+0.000", some (907/10), none, none, none, "MEDIUM", 1⟩

set_option maxRecDepth 8000 in
/-- C5, witness. At the concrete two-competitor store under the all-zero
stream, both index hypotheses hold by evaluation and the amended theorem
yields the leader sentinel and the synthetic gap shape. -/
theorem C5_amended_witness :
    ((timingData (driversQuery storeC5 1) randZero)[0]? = some e0C5 ∧
      e0C5.gap = "LEADER") ∧
    ((timingData (driversQuery storeC5 1) randZero)[1]? = some e1C5 ∧
      e1C5.gap = "+" ++ toFixed3 (randZero 1 * 30)) := by
  have h0 : (timingData (driversQuery storeC5 1) randZero)[0]? = some e0C5 := by
    with_unfolding_all decide
  have h1 : (timingData (driversQuery storeC5 1) randZero)[1]? = some e1C5 := by
    with_unfolding_all decide
  exact ⟨⟨h0, (C5_amended_ranking_and_synthetic_gaps storeC5 1 randZero).2.1 e0C5 h0⟩,
    ⟨h1, (C5_amended_ranking_and_synthetic_gaps storeC5 1 randZero).2.2 1 e1C5 h1
      (by decide)⟩⟩

/-- The total number of lap records distributed across all competitors'
`laps` arrays of a drivers object. -/
def lapsTotal (m : ObjMap DriverEntry) : Nat :=
  (m.map (fun p => p.2.laps.length)).sum

/-- Auxiliary: a successful object read is a member. -/
theorem objGet_mem {α : Type} {m : ObjMap α} {k : String} {e : α}
    (h : objGet m k = some e) : (k, e) ∈ m := by
  induction m with
  | nil => simp [objGet] at h
  | cons p rest ih =>
      obtain ⟨a, b⟩ := p
      by_cases hp : a = k
      · subst hp
        simp only [objGet, if_true, Option.some.injEq] at h
        subst h
        exact List.mem_cons_self _ _
      · simp only [objGet, hp, if_false] at h
        exact List.mem_cons_of_mem (a, b) (ih h)

/-- Auxiliary: overwriting an existing key exchanges its laps count. -/
theorem lapsTotal_objSet_present {m : ObjMap DriverEntry} {k : String}
    {e : DriverEntry} (v : DriverEntry) (h : objGet m k = some e) :
    lapsTotal (objSet m k v) + e.laps.length = lapsTotal m + v.laps.length := by
  induction m with
  | nil => simp [objGet] at h
  | cons p rest ih =>
      by_cases hp : p.1 = k
      · simp only [objGet, hp, if_true, Option.some.injEq] at h
        subst h
        simp only [objSet, hp, if_true, lapsTotal, List.map_cons, List.sum_cons]
        omega
      · simp only [objGet, hp, if_false] at h
        simp only [objSet, hp, if_false, lapsTotal, List.map_cons, List.sum_cons]
        have := ih h
        simp only [lapsTotal] at this
        omega

/-- Auxiliary: distributing one lap row grows the total by at most one. -/
theorem lapsTotal_addLap (m : ObjMap DriverEntry) (lt : LapRow) :
    lapsTotal (addLap m lt) ≤ lapsTotal m + 1 := by
  unfold addLap
  cases h : objGet m lt.driver_number with
  | none => dsimp only; omega
  | some e =>
      dsimp only
      have := lapsTotal_objSet_present
        { e with laps := e.laps ++ [toLapJson lt] } h
      simp only [List.length_append, List.length_singleton] at this
      omega

/-- Auxiliary: distributing a list of lap rows grows the total by at most
its length. -/
theorem lapsTotal_addLaps (l : List LapRow) (m : ObjMap DriverEntry) :
    lapsTotal (addLaps m l) ≤ lapsTotal m + l.length := by
  induction l generalizing m with
  | nil => simp [addLaps]
  | cons x l ih =>
      have h1 : addLaps m (x :: l) = addLaps (addLap m x) l := by
        simp [addLaps]
      rw [h1]
      have h2 := ih (addLap m x)
      have h3 := lapsTotal_addLap m x
      simp only [List.length_cons]
      omega

/-- Auxiliary: every entry written by `buildDriversData` starts with an
empty laps array. -/
theorem buildDriversData_laps_nil (rows : List DriverAggRow) :
    ∀ p ∈ buildDriversData rows, p.2.laps = [] := by
  unfold buildDriversData
  exact foldl_objSet_preserves
    (fun (p : String × DriverEntry) => p.2.laps = [])
    (fun (driver : DriverAggRow) =>
      (jsKey driver.key.driver_number,
        { driver_number := driver.key.driver_number
          name := driver.key.full_name
          abbreviation := driver.key.driver_code
          team := jsOr driver.key.team_name "Unknown Team"
          team_color := jsOr driver.key.team_color "#808080"
          country_code := jsOr driver.key.nationality "Unknown"
          laps := []
          fastest_lap := driver.fastest_lap }))
    (fun _ => rfl)
    _ [] (by simp)

/-- Auxiliary: a drivers object whose entries all have empty laps has
total zero. -/
theorem lapsTotal_eq_zero (m : ObjMap DriverEntry)
    (h : ∀ p ∈ m, p.2.laps = []) : lapsTotal m = 0 := by
  induction m with
  | nil => rfl
  | cons p rest ih =>
      have hp := h p (List.mem_cons_self p rest)
      simp only [lapsTotal, List.map_cons, List.sum_cons, hp, List.length_nil]
      have := ih (fun q hq => h q (List.mem_cons_of_mem p hq))
      simp only [lapsTotal] at this
      omega

/-- Auxiliary: after distribution, every lap in any competitor's array is
the projection of a distributed row carrying that competitor's number. -/
theorem addLaps_traceable (L : List LapRow) :
    ∀ (l : List LapRow), (∀ x ∈ l, x ∈ L) →
      ∀ (m : ObjMap DriverEntry),
        (∀ p ∈ m, ∀ lj ∈ p.2.laps,
          ∃ lt, lt ∈ L ∧ lt.driver_number = p.1 ∧ toLapJson lt = lj) →
        ∀ p ∈ addLaps m l, ∀ lj ∈ p.2.laps,
          ∃ lt, lt ∈ L ∧ lt.driver_number = p.1 ∧ toLapJson lt = lj := by
  intro l
  induction l with
  | nil => intro _ m hm; simpa [addLaps] using hm
  | cons x l ih =>
      intro hsub m hm
      have h1 : addLaps m (x :: l) = addLaps (addLap m x) l := by
        simp [addLaps]
      rw [h1]
      refine ih (fun y hy => hsub y (List.mem_cons_of_mem x hy)) (addLap m x) ?_
      intro p hp lj hlj
      unfold addLap at hp
      cases hob : objGet m x.driver_number with
      | none =>
          rw [hob] at hp
          exact hm p hp lj hlj
      | some e =>
          rw [hob] at hp
          rcases mem_objSet hp with hmem | heq
          · exact hm p hmem lj hlj
          · subst heq
            simp only at hlj
            rcases List.mem_append.mp hlj with hin | hin
            · exact hm (x.driver_number, e) (objGet_mem hob) lj hin
            · refine ⟨x, hsub x (List.mem_cons_self x l), rfl, ?_⟩
              exact (List.mem_singleton.mp hin).symm

/-- C10. The GET session handler distributes at most 100 lap records in
total across all competitors' laps arrays: the drivers object of a
successful response is exactly the distribution of `lapTimesQuery` — the
first 100 of the session's lap rows in (driver number, lap number) order —
over the aggregated drivers, so the combined length of all laps arrays is
at most 100, and every distributed lap is the projection of one of those
first 100 rows carrying its competitor's key; rows beyond the limit
(competitors sorting later) are simply absent. -/
theorem C10_at_most_100_laps_distributed
    (store : Store) (rand : Nat → ℚ) (y r : Nat) (t : String)
    (sess : SessionRow) (rest : List SessionRow)
    (hfind : store.f1_sessions.filter
      (fun s => decide (s.year = y ∧ s.round_number = r ∧ s.session_type = t)) =
      sess :: rest) :
    (f1SessionHandler store rand (some y) (some r) t).toOption.map (fun d => d.drivers) =
      some (addLaps (buildDriversData (driversQuery store sess.id))
        (lapTimesQuery store sess.id)) ∧
    (lapTimesQuery store sess.id).length ≤ 100 ∧
    lapsTotal (addLaps (buildDriversData (driversQuery store sess.id))
      (lapTimesQuery store sess.id)) ≤ 100 ∧
    (∀ p ∈ addLaps (buildDriversData (driversQuery store sess.id))
        (lapTimesQuery store sess.id),
      ∀ lj ∈ p.2.laps, ∃ lt, lt ∈ lapTimesQuery store sess.id ∧
        lt.driver_number = p.1 ∧ toLapJson lt = lj) := by
  have hzero : lapsTotal (buildDriversData (driversQuery store sess.id)) = 0 :=
    lapsTotal_eq_zero _ (buildDriversData_laps_nil _)
  have hlen : (lapTimesQuery store sess.id).length ≤ 100 := by
    unfold lapTimesQuery
    exact List.length_take_le _ _
  refine ⟨?_, hlen, ?_, ?_⟩
  · simp only [f1SessionHandler]
    rw [hfind]
    simp [Except.toOption]
  · have := lapsTotal_addLaps (lapTimesQuery store sess.id)
      (buildDriversData (driversQuery store sess.id))
    omega
  · refine addLaps_traceable (lapTimesQuery store sess.id)
      (lapTimesQuery store sess.id) (fun x hx => hx)
      (buildDriversData (driversQuery store sess.id)) ?_
    intro p hp lj hlj
    rw [buildDriversData_laps_nil _ p hp] at hlj
    simp at hlj

/-- A store whose session has two lap rows for competitor `1`. -/
def storeC10 : Store :=
  ⟨[⟨1, 2024, 1, "Race", "Bahrain Grand Prix", some "bahrain", some "Bahrain",
      some "Sakhir", some 1709400000, none, none, true, 0⟩],
    [⟨"1", some "VER", some "Max Verstappen", none, none, some "NED", none, true⟩],
    [], [mkLap 3 1 "1" 1 (some 91), mkLap 4 1 "1" 2 (some 90)], [], [], []⟩

/-- C10, witness. At the concrete two-lap store the find hypothesis holds
by evaluation; the theorem bounds the distributed total, which evaluates to
2 here. -/
theorem C10_witness :
    lapsTotal (addLaps (buildDriversData (driversQuery storeC10 1))
      (lapTimesQuery storeC10 1)) ≤ 100 ∧
    lapsTotal (addLaps (buildDriversData (driversQuery storeC10 1))
      (lapTimesQuery storeC10 1)) = 2 :=
  ⟨(C10_at_most_100_laps_distributed storeC10 randZero 2024 1 "Race"
      ⟨1, 2024, 1, "Race", "Bahrain Grand Prix", some "bahrain", some "Bahrain",
        some "Sakhir", some 1709400000, none, none, true, 0⟩ [] rfl).2.2.1,
    by with_unfolding_all decide⟩
